import Mathlib

/-!
The public header `include/quicly.h` of quicly.

A shallow embedding of the executable content of `include/quicly.h`:

* the error-code definitions (lines 30-47): each object-like or function-like
  preprocessor definition becomes a definition with the same name and the same
  right-hand side, giving the mathematical value of the sum; the value the C
  addition yields in the type of the argument (`int`: no value on overflow,
  `unsigned int`: reduced modulo `2 ^ 32`) is given by the `_int` and `_uint`
  variants, and `fits_int32` states the range of `int`;
* the build-time assertion `QUICLY_BUILD_ASSERT` (line 49): the array length
  expression, with the C operators `!` and `||` embedded as `c_lnot`, `c_lor`;
* the enumeration `quicly_state_t` (line 115);
* the public connection view `struct _st_quicly_conn_public_t` (lines 117-130)
  and the four inline accessors (lines 229-252), in state-passing style; the
  stores of `quicly_get_peername` go through its two pointer arguments, which
  may designate caller-owned cells or fields of the connection itself.
-/

namespace Quicly

/-! ## C integer conventions -/

/-- Least value of a 32-bit signed `int`. -/
def INT_MIN : Int := -(2 ^ 31)

/-- Greatest value of a 32-bit signed `int`. -/
def INT_MAX : Int := 2 ^ 31 - 1

/-- The mathematical value `x` is representable in a 32-bit signed `int`, i.e. computing it
in C does not overflow. -/
def fits_int32 (x : Int) : Prop := INT_MIN ≤ x ∧ x ≤ INT_MAX

instance (x : Int) : Decidable (fits_int32 x) := by
  unfold fits_int32
  infer_instance

/-- Greatest value of a 32-bit `unsigned int`. -/
def UINT_MAX : Nat := 2 ^ 32 - 1

/-- C `a + b` with both operands of type `int`: the sum when it is representable, and no
value when the addition overflows (signed overflow is undefined). -/
def c_add_int (a b : Int) : Option Int := if fits_int32 (a + b) then some (a + b) else none

/-- C `a + b` with `a` of type `int` and `b` of type `unsigned int`: `a` is converted to
`unsigned int` and the sum is reduced modulo `2 ^ 32`. -/
def c_add_int_uint (a : Int) (b : Nat) : Nat := ((a % 2 ^ 32).toNat + b) % 2 ^ 32

/-- C logical negation `!x`: `1` when `x` compares equal to `0`, else `0`. -/
def c_lnot (x : Int) : Int := if x = 0 then 1 else 0

/-- C logical disjunction `a || b`: `1` when either operand is non-zero, else `0`. -/
def c_lor (a b : Int) : Int := if a ≠ 0 then 1 else if b ≠ 0 then 1 else 0

/-! ## Error codes (quicly.h, lines 30-47) -/

/-- Line 30: `QUICLY_TRANSPORT_ERROR_BASE 1024`. -/
def QUICLY_TRANSPORT_ERROR_BASE : Int := 1024

/-- Line 31: `QUICLY_TRANSPORT_ERROR_CODE(n) (QUICLY_TRANSPORT_ERROR_BASE + (n))`, as the
mathematical sum; it is the value of the C expression wherever the addition neither
overflows nor wraps (see `QUICLY_TRANSPORT_ERROR_CODE_int`, `QUICLY_TRANSPORT_ERROR_CODE_uint`). -/
def QUICLY_TRANSPORT_ERROR_CODE (n : Int) : Int := QUICLY_TRANSPORT_ERROR_BASE + n

/-- Line 31 expanded at an argument of type `int`. -/
def QUICLY_TRANSPORT_ERROR_CODE_int (n : Int) : Option Int :=
  c_add_int QUICLY_TRANSPORT_ERROR_BASE n

/-- Line 31 expanded at an argument of type `unsigned int`. -/
def QUICLY_TRANSPORT_ERROR_CODE_uint (n : Nat) : Nat :=
  c_add_int_uint QUICLY_TRANSPORT_ERROR_BASE n

/-- Line 32. -/
def QUICLY_ERROR_INVALID_PACKET_HEADER : Int := QUICLY_TRANSPORT_ERROR_CODE 0x3

/-- Line 33. -/
def QUICLY_ERROR_INVALID_FRAME_DATA : Int := QUICLY_TRANSPORT_ERROR_CODE 0x4

/-- Line 34. -/
def QUICLY_ERROR_CLOSED_CRITICAL_STREAM : Int := QUICLY_TRANSPORT_ERROR_CODE 0x7

/-- Line 35. -/
def QUICLY_ERROR_MISSING_PAYLOAD : Int := QUICLY_TRANSPORT_ERROR_CODE 0x30

/-- Line 36. -/
def QUICLY_ERROR_INVALID_STREAM_DATA : Int := QUICLY_TRANSPORT_ERROR_CODE 0x2e

/-- Line 37. -/
def QUICLY_ERROR_UNENCRYPTED_STREAM_DATA : Int := QUICLY_TRANSPORT_ERROR_CODE 0x3d

/-- Line 38. -/
def QUICLY_ERROR_DECRYPTION_FAILURE : Int := QUICLY_TRANSPORT_ERROR_CODE 0xc

/-- Line 39. -/
def QUICLY_ERROR_TOO_MANY_OPEN_STREAMS : Int := QUICLY_TRANSPORT_ERROR_CODE 0x12

/-- Line 40. -/
def QUICLY_ERROR_INVALID_VERSION : Int := QUICLY_TRANSPORT_ERROR_CODE 0x14

/-- Line 41. -/
def QUICLY_ERROR_EMPTY_STREAM_FRAME_NO_FIN : Int := QUICLY_TRANSPORT_ERROR_CODE 0x32

/-- Line 42: the right-hand side in the source is the bare literal `(0x37)`; unlike lines
32-41 it is not wrapped in `QUICLY_TRANSPORT_ERROR_CODE`. -/
def QUICLY_ERROR_VERSION_NEGOTIATION_MISMATCH : Int := 0x37

/-- Line 44: `QUICLY_INTERNAL_ERROR_BASE 1280`. -/
def QUICLY_INTERNAL_ERROR_BASE : Int := 1280

/-- Line 45: `QUICLY_INTERNAL_ERROR_CODE(n) (QUICLY_INTERNAL_ERROR_BASE + (n))`, as the
mathematical sum; it is the value of the C expression wherever the addition neither
overflows nor wraps (see `QUICLY_INTERNAL_ERROR_CODE_int`, `QUICLY_INTERNAL_ERROR_CODE_uint`). -/
def QUICLY_INTERNAL_ERROR_CODE (n : Int) : Int := QUICLY_INTERNAL_ERROR_BASE + n

/-- Line 45 expanded at an argument of type `int`. -/
def QUICLY_INTERNAL_ERROR_CODE_int (n : Int) : Option Int :=
  c_add_int QUICLY_INTERNAL_ERROR_BASE n

/-- Line 45 expanded at an argument of type `unsigned int`. -/
def QUICLY_INTERNAL_ERROR_CODE_uint (n : Nat) : Nat :=
  c_add_int_uint QUICLY_INTERNAL_ERROR_BASE n

/-- Line 46. -/
def QUICLY_ERROR_HANDSHAKE_TOO_LARGE : Int := QUICLY_INTERNAL_ERROR_CODE 1

/-- Line 47. -/
def QUICLY_ERROR_PACKET_IGNORED : Int := QUICLY_INTERNAL_ERROR_CODE 2

/-- The ten `QUICLY_ERROR_*` constants of lines 32-41, in source order. -/
def wrapped_transport_errors : List Int :=
  [QUICLY_ERROR_INVALID_PACKET_HEADER, QUICLY_ERROR_INVALID_FRAME_DATA,
   QUICLY_ERROR_CLOSED_CRITICAL_STREAM, QUICLY_ERROR_MISSING_PAYLOAD,
   QUICLY_ERROR_INVALID_STREAM_DATA, QUICLY_ERROR_UNENCRYPTED_STREAM_DATA,
   QUICLY_ERROR_DECRYPTION_FAILURE, QUICLY_ERROR_TOO_MANY_OPEN_STREAMS,
   QUICLY_ERROR_INVALID_VERSION, QUICLY_ERROR_EMPTY_STREAM_FRAME_NO_FIN]

/-- The eleven constants the header places in its transport block (lines 32-42), which are
the eleven error kinds the specification lists as transport-class. -/
def transport_class_errors : List Int :=
  wrapped_transport_errors ++ [QUICLY_ERROR_VERSION_NEGOTIATION_MISMATCH]

/-- The two constants of the internal block (lines 46-47). -/
def internal_class_errors : List Int :=
  [QUICLY_ERROR_HANDSHAKE_TOO_LARGE, QUICLY_ERROR_PACKET_IGNORED]

/-- All thirteen `QUICLY_ERROR_*` constants of the header, in source order. -/
def all_errors : List Int := transport_class_errors ++ internal_class_errors

/-- The reserved transport range: `QUICLY_TRANSPORT_ERROR_BASE ≤ c < QUICLY_INTERNAL_ERROR_BASE`. -/
def in_transport_range (c : Int) : Prop :=
  QUICLY_TRANSPORT_ERROR_BASE ≤ c ∧ c < QUICLY_INTERNAL_ERROR_BASE

instance (c : Int) : Decidable (in_transport_range c) := by
  unfold in_transport_range
  infer_instance

/-! ## Build-time assertion (quicly.h, line 49) -/

/-- Line 49: the length of the `char` array whose `sizeof` is taken by
`QUICLY_BUILD_ASSERT(condition)`,
`2 * !!(!__builtin_constant_p(condition) || (condition)) - 1`.
`constant_p` is the value returned by the compiler builtin `__builtin_constant_p(condition)`
and `condition` the value of the condition itself. -/
def QUICLY_BUILD_ASSERT_length (constant_p condition : Int) : Int :=
  2 * c_lnot (c_lnot (c_lor (c_lnot constant_p) condition)) - 1

/-- The builtin `__builtin_constant_p` yields the `int` 1 for a compile-time constant and 0
otherwise. -/
def builtin_constant_p (k : Bool) : Int := if k then 1 else 0

/-! ## Connection state and public view (quicly.h, lines 65-86 and 115-130) -/

/-- A C pointer value (an address); the header never dereferences `ctx` or `sa`. -/
abbrev Ptr := Nat

/-- Lines 65-86: `quicly_transport_parameters_t`; the unsigned fields are carried by their
values. -/
structure quicly_transport_parameters_t where
  initial_max_stream_data : Nat
  initial_max_data : Nat
  initial_max_stream_id : Nat
  idle_timeout : Nat
  truncate_connection_id : Nat
deriving DecidableEq

/-- Line 115: the enumerators of `quicly_state_t`, in declaration order. -/
inductive quicly_state_t where
  | QUICLY_STATE_BEFORE_SH
  | QUICLY_STATE_BEFORE_SF
  | QUICLY_STATE_1RTT_ENCRYPTED
deriving DecidableEq

/-- Line 115: the `int` value of each enumerator. The first is given explicitly (`= 0`); an
enumerator without an initialiser has the value of the previous one plus one. -/
def quicly_state_t.value : quicly_state_t → Int
  | .QUICLY_STATE_BEFORE_SH => 0
  | .QUICLY_STATE_BEFORE_SF => 0 + 1
  | .QUICLY_STATE_1RTT_ENCRYPTED => 0 + 1 + 1

/-- Lines 121-123: the anonymous `host` member. `next_stream_id` is a `uint32_t`. -/
structure conn_host_t where
  next_stream_id : Nat
deriving DecidableEq

/-- Lines 124-129: the anonymous `peer` member. -/
structure conn_peer_t where
  next_stream_id : Nat
  sa : Ptr
  salen : Nat
  transport_params : quicly_transport_parameters_t
deriving DecidableEq

/-- Lines 117-130: `struct _st_quicly_conn_public_t`. -/
structure _st_quicly_conn_public_t where
  ctx : Ptr
  connection_id : Nat
  state : quicly_state_t
  host : conn_host_t
  peer : conn_peer_t
deriving DecidableEq

/-- The part of memory an accessor call can touch: the object its `conn` argument points to
(viewed through `struct _st_quicly_conn_public_t`), and two caller-owned cells, a
`struct sockaddr *` and a `socklen_t`, outside that object. -/
structure Mem where
  conn : _st_quicly_conn_public_t
  sa_out : Ptr
  salen_out : Nat
deriving DecidableEq

/-- What the `struct sockaddr **sa` argument of `quicly_get_peername` may point to: the
caller-owned cell, or the one member of the connection of type `struct sockaddr *`. -/
inductive sa_target where
  | caller
  | peer_sa
deriving DecidableEq

/-- What the `socklen_t *salen` argument of `quicly_get_peername` may point to: the
caller-owned cell, or a member of the connection of the same 32-bit unsigned type
(`socklen_t` and `uint32_t` both being `unsigned int`). -/
inductive salen_target where
  | caller
  | host_next_stream_id
  | peer_next_stream_id
  | peer_salen
  | initial_max_stream_data
  | initial_max_data
  | initial_max_stream_id
deriving DecidableEq

/-- The store `*sa = v`. -/
def store_sa (m : Mem) : sa_target → Ptr → Mem
  | .caller, v => { m with sa_out := v }
  | .peer_sa, v => { m with conn := { m.conn with peer := { m.conn.peer with sa := v } } }

/-- The store `*salen = v`. -/
def store_salen (m : Mem) : salen_target → Nat → Mem
  | .caller, v => { m with salen_out := v }
  | .host_next_stream_id, v =>
    { m with conn := { m.conn with host := { next_stream_id := v } } }
  | .peer_next_stream_id, v =>
    { m with conn := { m.conn with peer := { m.conn.peer with next_stream_id := v } } }
  | .peer_salen, v =>
    { m with conn := { m.conn with peer := { m.conn.peer with salen := v } } }
  | .initial_max_stream_data, v =>
    { m with conn := { m.conn with peer := { m.conn.peer with
        transport_params := { m.conn.peer.transport_params with
          initial_max_stream_data := v } } } }
  | .initial_max_data, v =>
    { m with conn := { m.conn with peer := { m.conn.peer with
        transport_params := { m.conn.peer.transport_params with initial_max_data := v } } } }
  | .initial_max_stream_id, v =>
    { m with conn := { m.conn with peer := { m.conn.peer with
        transport_params := { m.conn.peer.transport_params with
          initial_max_stream_id := v } } } }

/-! ## Inline accessors (quicly.h, lines 229-252)

Each accessor maps the memory before the call to its return value and the memory after. -/

/-- Lines 229-233: `return c->state;`. -/
def quicly_get_state (m : Mem) : quicly_state_t × Mem :=
  let c := m.conn
  (c.state, m)

/-- Lines 235-239: `return c->connection_id;`. -/
def quicly_get_connection_id (m : Mem) : Nat × Mem :=
  let c := m.conn
  (c.connection_id, m)

/-- Lines 241-245: `return c->host.next_stream_id % 2 != 0;` (an `int`, 1 or 0). -/
def quicly_is_client (m : Mem) : Int × Mem :=
  let c := m.conn
  (if c.host.next_stream_id % 2 ≠ 0 then 1 else 0, m)

/-- Lines 247-252: `*sa = c->peer.sa; *salen = c->peer.salen;`, with `sa` and `salen` the
places the two pointer arguments designate. The second statement reads the connection from
the memory left by the first. -/
def quicly_get_peername_at (m : Mem) (sa : sa_target) (salen : salen_target) : Unit × Mem :=
  let m1 : Mem := store_sa m sa m.conn.peer.sa
  let m2 : Mem := store_salen m1 salen m1.conn.peer.salen
  ((), m2)

/-- Lines 247-252 for the call `quicly_get_peername(conn, &sa, &salen)` whose two outputs are
the caller-owned cells. -/
def quicly_get_peername (m : Mem) : Unit × Mem :=
  quicly_get_peername_at m .caller .caller

/-- The memory in which `host.next_stream_id` of the connection holds `v` and every other
field is as in `m`. -/
def with_host_next_stream_id (m : Mem) (v : Nat) : Mem :=
  { m with conn := { m.conn with host := { next_stream_id := v } } }

/-! ## Handshake order of the specification (spec section 4.5) -/

/-- Specification side: the arrows of
`BeforeServerHello → BeforeServerFinished → OneRttEncrypted`. -/
inductive handshake_step : quicly_state_t → quicly_state_t → Prop
  | sh_sf : handshake_step .QUICLY_STATE_BEFORE_SH .QUICLY_STATE_BEFORE_SF
  | sf_1rtt : handshake_step .QUICLY_STATE_BEFORE_SF .QUICLY_STATE_1RTT_ENCRYPTED

/-- Specification side: a transition is forward when it follows one or more arrows. -/
def forward (a b : quicly_state_t) : Prop := Relation.TransGen handshake_step a b

/-- A sample connection used to instantiate statements. -/
def sample_conn : _st_quicly_conn_public_t :=
  { ctx := 4096, connection_id := 0x1122334455667788, state := .QUICLY_STATE_BEFORE_SF,
    host := { next_stream_id := 5 },
    peer := { next_stream_id := 2, sa := 8192, salen := 16,
              transport_params := { initial_max_stream_data := 8192, initial_max_data := 16,
                                    initial_max_stream_id := 100, idle_timeout := 60,
                                    truncate_connection_id := 0 } } }

/-- A sample memory around `sample_conn`, with arbitrary prior contents in the output
cells. -/
def sample_mem : Mem := { conn := sample_conn, sa_out := 7, salen_out := 9 }

/-- A second connection: same host counter as `sample_conn`, every other field different. -/
def other_conn : _st_quicly_conn_public_t :=
  { ctx := 1, connection_id := 2, state := .QUICLY_STATE_1RTT_ENCRYPTED,
    host := { next_stream_id := 5 },
    peer := { next_stream_id := 8, sa := 3, salen := 28,
              transport_params := { initial_max_stream_data := 1, initial_max_data := 2,
                                    initial_max_stream_id := 3, idle_timeout := 4,
                                    truncate_connection_id := 1 } } }

/-- A memory around `other_conn`. -/
def other_mem : Mem := { conn := other_conn, sa_out := 0, salen_out := 0 }

/-! ## Auxiliary lemmas -/

theorem transport_code_bounds (n : Int) (h0 : 0 ≤ n) (h1 : n < 256) :
    1024 ≤ QUICLY_TRANSPORT_ERROR_CODE n ∧ QUICLY_TRANSPORT_ERROR_CODE n < 1280 := by
  unfold QUICLY_TRANSPORT_ERROR_CODE QUICLY_TRANSPORT_ERROR_BASE
  constructor <;> omega

theorem internal_code_lower_bound (m : Int) (h0 : 0 ≤ m) :
    1280 ≤ QUICLY_INTERNAL_ERROR_CODE m := by
  unfold QUICLY_INTERNAL_ERROR_CODE QUICLY_INTERNAL_ERROR_BASE
  omega

theorem handshake_step_value {a b : quicly_state_t} (h : handshake_step a b) :
    b.value = a.value + 1 := by
  cases h <;> simp [quicly_state_t.value]

theorem forward_value_lt {a b : quicly_state_t} (h : forward a b) : a.value < b.value := by
  unfold forward at h
  induction h with
  | single hs =>
    have := handshake_step_value hs
    omega
  | tail _ hs ih =>
    have := handshake_step_value hs
    omega

theorem value_lt_forward {a b : quicly_state_t} (h : a.value < b.value) : forward a b := by
  unfold forward
  cases a <;> cases b <;> simp [quicly_state_t.value] at h
  · exact Relation.TransGen.single handshake_step.sh_sf
  · exact Relation.TransGen.tail (Relation.TransGen.single handshake_step.sh_sf)
      handshake_step.sf_1rtt
  · exact Relation.TransGen.single handshake_step.sf_1rtt

theorem is_client_eq (m : Mem) :
    (quicly_is_client m).1 = if m.conn.host.next_stream_id % 2 = 1 then 1 else 0 := by
  unfold quicly_is_client
  rcases Nat.mod_two_eq_zero_or_one m.conn.host.next_stream_id with h | h <;> simp [h]

/-! ## Error codes: claims C1, C5, C6, C9 -/

/-- C1 (evaluation of the code at the divergent constant). Each of the ten constants of
lines 32-41 is `QUICLY_TRANSPORT_ERROR_BASE + n` for some `0 ≤ n < 256` and lies in the
transport range, whereas `QUICLY_ERROR_VERSION_NEGOTIATION_MISMATCH` (line 42) evaluates to
55: it is below `QUICLY_TRANSPORT_ERROR_BASE`, outside the transport range, and is not
`QUICLY_TRANSPORT_ERROR_CODE n` for any `0 ≤ n < 256`. -/
theorem version_negotiation_mismatch_not_transport_code :
    (∀ c ∈ wrapped_transport_errors,
        (∃ n : Int, 0 ≤ n ∧ n < 256 ∧ c = QUICLY_TRANSPORT_ERROR_CODE n) ∧
        in_transport_range c) ∧
    QUICLY_ERROR_VERSION_NEGOTIATION_MISMATCH = 55 ∧
    QUICLY_ERROR_VERSION_NEGOTIATION_MISMATCH < QUICLY_TRANSPORT_ERROR_BASE ∧
    ¬ in_transport_range QUICLY_ERROR_VERSION_NEGOTIATION_MISMATCH ∧
    ¬ ∃ n : Int, 0 ≤ n ∧ n < 256 ∧
        QUICLY_ERROR_VERSION_NEGOTIATION_MISMATCH = QUICLY_TRANSPORT_ERROR_CODE n := by
  refine ⟨?_, rfl, by decide, by decide, ?_⟩
  · intro c hc
    refine ⟨⟨c - QUICLY_TRANSPORT_ERROR_BASE, ?_, ?_, ?_⟩, ?_⟩ <;>
      simp only [wrapped_transport_errors, List.mem_cons, List.mem_singleton,
        List.mem_nil_iff, or_false] at hc <;>
      rcases hc with h | h | h | h | h | h | h | h | h | h <;>
      subst h <;> decide
  · rintro ⟨n, h0, _, h⟩
    unfold QUICLY_ERROR_VERSION_NEGOTIATION_MISMATCH QUICLY_TRANSPORT_ERROR_CODE
      QUICLY_TRANSPORT_ERROR_BASE at h
    omega

/-- C5 (the claim as stated fails). Expanded at the `unsigned int` argument `0xFFFFFFFF`,
`QUICLY_INTERNAL_ERROR_CODE` wraps to 1279, which is below 1280, lies in the transport range
and is the value of `QUICLY_TRANSPORT_ERROR_CODE` at 255; the first wrapping argument,
`UINT_MAX - 1279`, gives 0. Expanded at the `int` arguments `INT_MAX` and
`INT_MAX - 1279` the addition overflows and has no value. So "for every `m ≥ 0` the
internal code is at least 1280" does not hold of the code. -/
theorem internal_code_wraps_into_transport_range :
    QUICLY_INTERNAL_ERROR_CODE_uint 0xFFFFFFFF = 1279 ∧
    ¬ 1280 ≤ QUICLY_INTERNAL_ERROR_CODE_uint 0xFFFFFFFF ∧
    in_transport_range (QUICLY_INTERNAL_ERROR_CODE_uint 0xFFFFFFFF : Int) ∧
    (QUICLY_INTERNAL_ERROR_CODE_uint 0xFFFFFFFF : Int) = QUICLY_TRANSPORT_ERROR_CODE 255 ∧
    QUICLY_INTERNAL_ERROR_CODE_uint 0xFFFFFFFF = QUICLY_TRANSPORT_ERROR_CODE_uint 255 ∧
    QUICLY_INTERNAL_ERROR_CODE_uint (UINT_MAX - 1279) = 0 ∧
    QUICLY_INTERNAL_ERROR_CODE_int INT_MAX = none ∧
    QUICLY_INTERNAL_ERROR_CODE_int (INT_MAX - 1279) = none ∧
    ¬ ∀ u : Nat, u ≤ UINT_MAX → 1280 ≤ QUICLY_INTERNAL_ERROR_CODE_uint u := by
  refine ⟨by decide, by decide, by decide, by decide, by decide, by decide, by decide,
    by decide, fun h => ?_⟩
  exact absurd (h 0xFFFFFFFF (by decide)) (by decide)

/-- C5 (amended). For every `n` with `0 ≤ n < 256` the code `QUICLY_TRANSPORT_ERROR_CODE n`
lies in `[1024, 1280)`, which is the range
`[QUICLY_TRANSPORT_ERROR_BASE, QUICLY_INTERNAL_ERROR_BASE)`. For every `int` argument `m`
with `0 ≤ m ≤ INT_MAX - 1280` and every `unsigned int` argument `u` with
`u ≤ UINT_MAX - 1280`, the addition of `QUICLY_INTERNAL_ERROR_CODE` neither overflows nor
wraps, its value is the mathematical sum, it is at least 1280, outside the transport range
and different from every such transport code. Neither internal-class constant
(`QUICLY_ERROR_HANDSHAKE_TOO_LARGE`, `QUICLY_ERROR_PACKET_IGNORED`) equals any of the eleven
transport-class constants or lies in the transport range. -/
theorem transport_internal_ranges_disjoint_without_overflow (n m : Int) (u : Nat)
    (hn0 : 0 ≤ n) (hn : n < 256)
    (hm0 : 0 ≤ m) (hm : m ≤ INT_MAX - QUICLY_INTERNAL_ERROR_BASE)
    (hu : u ≤ UINT_MAX - 1280) :
    QUICLY_TRANSPORT_ERROR_CODE_int n = some (QUICLY_TRANSPORT_ERROR_CODE n) ∧
    (QUICLY_TRANSPORT_ERROR_CODE_uint n.toNat : Int) = QUICLY_TRANSPORT_ERROR_CODE n ∧
    (1024 ≤ QUICLY_TRANSPORT_ERROR_CODE n ∧ QUICLY_TRANSPORT_ERROR_CODE n < 1280) ∧
    in_transport_range (QUICLY_TRANSPORT_ERROR_CODE n) ∧
    QUICLY_INTERNAL_ERROR_CODE_int m = some (QUICLY_INTERNAL_ERROR_CODE m) ∧
    1280 ≤ QUICLY_INTERNAL_ERROR_CODE m ∧
    ¬ in_transport_range (QUICLY_INTERNAL_ERROR_CODE m) ∧
    QUICLY_TRANSPORT_ERROR_CODE n ≠ QUICLY_INTERNAL_ERROR_CODE m ∧
    (QUICLY_INTERNAL_ERROR_CODE_uint u : Int) = QUICLY_INTERNAL_ERROR_CODE u ∧
    1280 ≤ QUICLY_INTERNAL_ERROR_CODE_uint u ∧
    ¬ in_transport_range (QUICLY_INTERNAL_ERROR_CODE_uint u : Int) ∧
    QUICLY_TRANSPORT_ERROR_CODE n ≠ (QUICLY_INTERNAL_ERROR_CODE_uint u : Int) ∧
    (∀ i ∈ internal_class_errors,
        (∀ t ∈ transport_class_errors, i ≠ t) ∧ ¬ in_transport_range i) := by
  have ht := transport_code_bounds n hn0 hn
  have hi := internal_code_lower_bound m hm0
  have h31 : (2 : Int) ^ 31 = 2147483648 := by norm_num
  have hbT : ((1024 : Int) % 2 ^ 32).toNat = 1024 := by decide
  have hbI : ((1280 : Int) % 2 ^ 32).toNat = 1280 := by decide
  have hT : QUICLY_TRANSPORT_ERROR_CODE n = 1024 + n := rfl
  have hI : QUICLY_INTERNAL_ERROR_CODE m = 1280 + m := rfl
  have hIu : QUICLY_INTERNAL_ERROR_CODE (u : Int) = 1280 + (u : Int) := rfl
  have hm1 : m ≤ 2147483647 - 1280 := by
    unfold INT_MAX QUICLY_INTERNAL_ERROR_BASE at hm
    omega
  have hu1 : u ≤ 4294967295 - 1280 := by
    unfold UINT_MAX at hu
    omega
  have eTu : QUICLY_TRANSPORT_ERROR_CODE_uint n.toNat = 1024 + n.toNat := by
    unfold QUICLY_TRANSPORT_ERROR_CODE_uint c_add_int_uint QUICLY_TRANSPORT_ERROR_BASE
    rw [hbT]
    omega
  have eIu : QUICLY_INTERNAL_ERROR_CODE_uint u = 1280 + u := by
    unfold QUICLY_INTERNAL_ERROR_CODE_uint c_add_int_uint QUICLY_INTERNAL_ERROR_BASE
    rw [hbI]
    omega
  have eTi : QUICLY_TRANSPORT_ERROR_CODE_int n = some (QUICLY_TRANSPORT_ERROR_CODE n) := by
    unfold QUICLY_TRANSPORT_ERROR_CODE_int c_add_int
    rw [if_pos]
    · rfl
    · unfold fits_int32 INT_MIN INT_MAX QUICLY_TRANSPORT_ERROR_BASE
      constructor <;> omega
  have eIi : QUICLY_INTERNAL_ERROR_CODE_int m = some (QUICLY_INTERNAL_ERROR_CODE m) := by
    unfold QUICLY_INTERNAL_ERROR_CODE_int c_add_int
    rw [if_pos]
    · rfl
    · unfold fits_int32 INT_MIN INT_MAX QUICLY_INTERNAL_ERROR_BASE
      constructor <;> omega
  refine ⟨eTi, ?_, ht, ?_, eIi, hi, ?_, ?_, ?_, ?_, ?_, ?_, by decide⟩
  · rw [eTu, hT]
    omega
  · unfold in_transport_range QUICLY_TRANSPORT_ERROR_BASE QUICLY_INTERNAL_ERROR_BASE
    exact ht
  · unfold in_transport_range QUICLY_TRANSPORT_ERROR_BASE QUICLY_INTERNAL_ERROR_BASE
    omega
  · omega
  · rw [eIu, hIu]
    omega
  · omega
  · unfold in_transport_range QUICLY_TRANSPORT_ERROR_BASE QUICLY_INTERNAL_ERROR_BASE
    rw [eIu]
    omega
  · rw [eIu]
    omega

/-- C5 (amended) instantiated at the wire code `0x3`, the `int` argument 1 and the
`unsigned int` argument 2. -/
theorem transport_internal_ranges_disjoint_without_overflow_witness :
    QUICLY_TRANSPORT_ERROR_CODE_int 3 = some (QUICLY_TRANSPORT_ERROR_CODE 3) ∧
    (QUICLY_TRANSPORT_ERROR_CODE_uint (3 : Int).toNat : Int) = QUICLY_TRANSPORT_ERROR_CODE 3 ∧
    (1024 ≤ QUICLY_TRANSPORT_ERROR_CODE 3 ∧ QUICLY_TRANSPORT_ERROR_CODE 3 < 1280) ∧
    in_transport_range (QUICLY_TRANSPORT_ERROR_CODE 3) ∧
    QUICLY_INTERNAL_ERROR_CODE_int 1 = some (QUICLY_INTERNAL_ERROR_CODE 1) ∧
    1280 ≤ QUICLY_INTERNAL_ERROR_CODE 1 ∧
    ¬ in_transport_range (QUICLY_INTERNAL_ERROR_CODE 1) ∧
    QUICLY_TRANSPORT_ERROR_CODE 3 ≠ QUICLY_INTERNAL_ERROR_CODE 1 ∧
    (QUICLY_INTERNAL_ERROR_CODE_uint 2 : Int) = QUICLY_INTERNAL_ERROR_CODE (2 : Nat) ∧
    1280 ≤ QUICLY_INTERNAL_ERROR_CODE_uint 2 ∧
    ¬ in_transport_range (QUICLY_INTERNAL_ERROR_CODE_uint 2 : Int) ∧
    QUICLY_TRANSPORT_ERROR_CODE 3 ≠ (QUICLY_INTERNAL_ERROR_CODE_uint 2 : Int) ∧
    (∀ i ∈ internal_class_errors,
        (∀ t ∈ transport_class_errors, i ≠ t) ∧ ¬ in_transport_range i) :=
  transport_internal_ranges_disjoint_without_overflow 3 1 2 (by decide) (by decide)
    (by decide) (by decide) (by decide)

/-- C6. The thirteen `QUICLY_ERROR_*` constants of the header (eleven transport-class, two
internal-class) are pairwise distinct integers, and none of them is 0. -/
theorem error_codes_pairwise_distinct_nonzero :
    all_errors.length = 13 ∧ transport_class_errors.length = 11 ∧
    internal_class_errors.length = 2 ∧
    all_errors.Pairwise (fun a b => a ≠ b) ∧ ∀ c ∈ all_errors, c ≠ 0 := by
  decide

/-- C9. For all `n`, `m` in `0..2^16`: `QUICLY_TRANSPORT_ERROR_CODE` and
`QUICLY_INTERNAL_ERROR_CODE` are injective, subtracting the base recovers the argument, and
every value involved is representable in a 32-bit signed `int` (no overflow). -/
theorem error_code_constructors_injective (n m : Int) (hn0 : 0 ≤ n) (hn : n ≤ 2 ^ 16)
    (hm0 : 0 ≤ m) (hm : m ≤ 2 ^ 16) :
    (QUICLY_TRANSPORT_ERROR_CODE n = QUICLY_TRANSPORT_ERROR_CODE m ↔ n = m) ∧
    (QUICLY_INTERNAL_ERROR_CODE n = QUICLY_INTERNAL_ERROR_CODE m ↔ n = m) ∧
    QUICLY_TRANSPORT_ERROR_CODE n - QUICLY_TRANSPORT_ERROR_BASE = n ∧
    QUICLY_INTERNAL_ERROR_CODE n - QUICLY_INTERNAL_ERROR_BASE = n ∧
    fits_int32 (QUICLY_TRANSPORT_ERROR_CODE n) ∧
    fits_int32 (QUICLY_INTERNAL_ERROR_CODE n) ∧
    fits_int32 (QUICLY_TRANSPORT_ERROR_CODE n - QUICLY_TRANSPORT_ERROR_BASE) ∧
    fits_int32 (QUICLY_INTERNAL_ERROR_CODE n - QUICLY_INTERNAL_ERROR_BASE) ∧
    fits_int32 (QUICLY_TRANSPORT_ERROR_CODE m) ∧
    fits_int32 (QUICLY_INTERNAL_ERROR_CODE m) := by
  unfold fits_int32 INT_MIN INT_MAX QUICLY_TRANSPORT_ERROR_CODE QUICLY_INTERNAL_ERROR_CODE
    QUICLY_TRANSPORT_ERROR_BASE QUICLY_INTERNAL_ERROR_BASE
  have h16 : (2 : Int) ^ 16 = 65536 := by norm_num
  have h31 : (2 : Int) ^ 31 = 2147483648 := by norm_num
  rw [h16] at hn hm
  rw [h31]
  refine ⟨⟨fun h => by omega, fun h => by omega⟩, ⟨fun h => by omega, fun h => by omega⟩,
    by omega, by omega, ⟨by omega, by omega⟩, ⟨by omega, by omega⟩, ⟨by omega, by omega⟩,
    ⟨by omega, by omega⟩, ⟨by omega, by omega⟩, ⟨by omega, by omega⟩⟩

/-- C9 instantiated at the wire codes `0x37` and `0x3`. -/
theorem error_code_constructors_injective_witness :
    (QUICLY_TRANSPORT_ERROR_CODE 0x37 = QUICLY_TRANSPORT_ERROR_CODE 0x3 ↔ (0x37 : Int) = 0x3) ∧
    (QUICLY_INTERNAL_ERROR_CODE 0x37 = QUICLY_INTERNAL_ERROR_CODE 0x3 ↔ (0x37 : Int) = 0x3) ∧
    QUICLY_TRANSPORT_ERROR_CODE 0x37 - QUICLY_TRANSPORT_ERROR_BASE = 0x37 ∧
    QUICLY_INTERNAL_ERROR_CODE 0x37 - QUICLY_INTERNAL_ERROR_BASE = 0x37 ∧
    fits_int32 (QUICLY_TRANSPORT_ERROR_CODE 0x37) ∧
    fits_int32 (QUICLY_INTERNAL_ERROR_CODE 0x37) ∧
    fits_int32 (QUICLY_TRANSPORT_ERROR_CODE 0x37 - QUICLY_TRANSPORT_ERROR_BASE) ∧
    fits_int32 (QUICLY_INTERNAL_ERROR_CODE 0x37 - QUICLY_INTERNAL_ERROR_BASE) ∧
    fits_int32 (QUICLY_TRANSPORT_ERROR_CODE 0x3) ∧
    fits_int32 (QUICLY_INTERNAL_ERROR_CODE 0x3) :=
  error_code_constructors_injective 0x37 0x3 (by decide) (by decide) (by decide) (by decide)

/-! ## Build-time assertion: claim C10 -/

/-- C10. With `k` telling whether the condition is a compile-time constant and `v` its
value, the array length of `QUICLY_BUILD_ASSERT` is `-1` exactly when `k` holds and `v` is
0, and is `1` in every other case (non-constant condition, or any non-zero `v`); it takes
no third value. -/
theorem build_assert_rejects_exactly_constant_false (k : Bool) (v : Int) :
    (QUICLY_BUILD_ASSERT_length (builtin_constant_p k) v = -1 ↔ (k = true ∧ v = 0)) ∧
    (QUICLY_BUILD_ASSERT_length (builtin_constant_p k) v = 1 ↔ ¬ (k = true ∧ v = 0)) ∧
    (QUICLY_BUILD_ASSERT_length (builtin_constant_p k) v = -1 ∨
      QUICLY_BUILD_ASSERT_length (builtin_constant_p k) v = 1) := by
  unfold QUICLY_BUILD_ASSERT_length builtin_constant_p c_lor c_lnot
  cases k <;> by_cases hv : v = 0 <;> simp [hv]

/-! ## Connection state encoding: claim C7 -/

/-- C7. `quicly_state_t` assigns `QUICLY_STATE_BEFORE_SH = 0`, `QUICLY_STATE_BEFORE_SF = 1`
and `QUICLY_STATE_1RTT_ENCRYPTED = 2`; the three values are distinct and increase in
handshake order; between any two memories, the states returned by `quicly_get_state` are
related by a forward transition of the specification exactly when the returned value
strictly increases; `QUICLY_STATE_BEFORE_SH` (value 0) is the least state and
`QUICLY_STATE_1RTT_ENCRYPTED` the greatest. -/
theorem state_values_follow_handshake_order (m1 m2 : Mem) :
    quicly_state_t.QUICLY_STATE_BEFORE_SH.value = 0 ∧
    quicly_state_t.QUICLY_STATE_BEFORE_SF.value = 1 ∧
    quicly_state_t.QUICLY_STATE_1RTT_ENCRYPTED.value = 2 ∧
    Function.Injective quicly_state_t.value ∧
    quicly_state_t.QUICLY_STATE_BEFORE_SH.value < quicly_state_t.QUICLY_STATE_BEFORE_SF.value ∧
    quicly_state_t.QUICLY_STATE_BEFORE_SF.value
      < quicly_state_t.QUICLY_STATE_1RTT_ENCRYPTED.value ∧
    (forward (quicly_get_state m1).1 (quicly_get_state m2).1 ↔
      (quicly_get_state m1).1.value < (quicly_get_state m2).1.value) ∧
    quicly_state_t.QUICLY_STATE_BEFORE_SH.value ≤ (quicly_get_state m1).1.value ∧
    (quicly_get_state m1).1.value ≤ quicly_state_t.QUICLY_STATE_1RTT_ENCRYPTED.value := by
  refine ⟨rfl, rfl, rfl, ?_, by decide, by decide, ⟨forward_value_lt, value_lt_forward⟩,
    ?_, ?_⟩
  · intro a b h
    cases a <;> cases b <;> simp [quicly_state_t.value] at h ⊢
  · show (0 : Int) ≤ m1.conn.state.value
    cases m1.conn.state <;> simp [quicly_state_t.value]
  · show m1.conn.state.value ≤ 0 + 1 + 1
    cases m1.conn.state <;> simp [quicly_state_t.value]

/-! ## Accessors: claims C2, C3, C4, C8 -/

/-- C2. `quicly_is_client` returns 1 when `host.next_stream_id` is odd and 0 when it is
even, and two connections with the same `host.next_stream_id` get the same result whatever
their other fields are. -/
theorem is_client_depends_only_on_parity (m1 m2 : Mem)
    (h : m1.conn.host.next_stream_id = m2.conn.host.next_stream_id) :
    (Odd m1.conn.host.next_stream_id → (quicly_is_client m1).1 = 1) ∧
    (Even m1.conn.host.next_stream_id → (quicly_is_client m1).1 = 0) ∧
    (quicly_is_client m1).1 = (quicly_is_client m2).1 := by
  refine ⟨fun ho => ?_, fun he => ?_, ?_⟩
  · rw [is_client_eq, if_pos (Nat.odd_iff.mp ho)]
  · rw [is_client_eq, if_neg (by rw [Nat.even_iff.mp he]; decide)]
  · rw [is_client_eq, is_client_eq, h]

/-- C2 instantiated at two connections that agree on `host.next_stream_id` (5) and differ in
every other field: both are clients. -/
theorem is_client_depends_only_on_parity_witness :
    sample_mem.conn.connection_id ≠ other_mem.conn.connection_id ∧
    sample_mem.conn.state ≠ other_mem.conn.state ∧
    sample_mem.conn.peer ≠ other_mem.conn.peer ∧
    (Odd sample_mem.conn.host.next_stream_id → (quicly_is_client sample_mem).1 = 1) ∧
    (Even sample_mem.conn.host.next_stream_id → (quicly_is_client sample_mem).1 = 0) ∧
    (quicly_is_client sample_mem).1 = (quicly_is_client other_mem).1 :=
  ⟨by decide, by decide, by decide, is_client_depends_only_on_parity sample_mem other_mem rfl⟩

/-- C3. `quicly_get_connection_id` returns `connection_id`, `quicly_get_state` returns
`state`, and `quicly_get_peername` leaves `peer.sa` in the `sa` output and `peer.salen` in
the `salen` output; both outputs are written whatever they held before the call (`a`, `b`
are arbitrary prior contents). -/
theorem accessors_read_their_field (m : Mem) (a : Ptr) (b : Nat) :
    (quicly_get_connection_id m).1 = m.conn.connection_id ∧
    (quicly_get_state m).1 = m.conn.state ∧
    (quicly_get_peername m).2.sa_out = m.conn.peer.sa ∧
    (quicly_get_peername m).2.salen_out = m.conn.peer.salen ∧
    (quicly_get_peername { m with sa_out := a, salen_out := b }).2 = (quicly_get_peername m).2 :=
  ⟨rfl, rfl, rfl, rfl, rfl⟩

/-- C8. Replacing `host.next_stream_id` by `(host.next_stream_id + 2 * k) mod 2^32` leaves
the result of `quicly_is_client` unchanged, for every `k`; replacing it by
`(host.next_stream_id + 1) mod 2^32` flips the result between 0 and 1. -/
theorem is_client_stable_under_allocation (m : Mem) (k : Nat) :
    (quicly_is_client
        (with_host_next_stream_id m ((m.conn.host.next_stream_id + 2 * k) % 2 ^ 32))).1
      = (quicly_is_client m).1 ∧
    (quicly_is_client
        (with_host_next_stream_id m ((m.conn.host.next_stream_id + 1) % 2 ^ 32))).1
      = 1 - (quicly_is_client m).1 ∧
    (quicly_is_client
        (with_host_next_stream_id m ((m.conn.host.next_stream_id + 1) % 2 ^ 32))).1
      ≠ (quicly_is_client m).1 := by
  have e1 : (m.conn.host.next_stream_id + 2 * k) % 2 ^ 32 % 2
      = m.conn.host.next_stream_id % 2 := by omega
  have e2 : (m.conn.host.next_stream_id + 1) % 2 ^ 32 % 2
      = 1 - m.conn.host.next_stream_id % 2 := by omega
  simp only [is_client_eq, with_host_next_stream_id, e1, e2]
  rcases Nat.mod_two_eq_zero_or_one m.conn.host.next_stream_id with h | h <;> simp [h]

end Quicly
